import Mathlib

/-!
Shallow embedding of `bin/check_arlo_mode.py` (repository `arlo_tools`).

The embedded core is: the `ScheduleEntry` data model, `build_schedule`
(configuration parsing, clock-format selection, time-of-day parsing via
`datetime.strptime`, projection onto the current day, midnight rollover),
`find_entry` (schedule resolution at an instant), and `check_station_mode`
(case-insensitive mode comparison and notification content).

Python `datetime.datetime` values are modelled by the `datetime` structure
below (naive datetimes; comparison in CPython is lexicographic on the
components).  `datetime.strptime` with the two format strings of the source,
`__fmt_12 = "%I:%M %p"` and `__fmt_24 = "%H:%m"`, is modelled by
`strptime12` and `strptime24`, following the directive regexes of CPython's
`_strptime.TimeRE` (`%H` is `2[0-3]|[0-1]\d|\d`, `%I` is `1[0-2]|0[1-9]|[1-9]`,
`%M` is `[0-5]\d|\d`, `%m` is `1[0-2]|0[1-9]|[1-9]`, `%p` is `am|pm`
case-insensitive, a space matches one or more whitespace characters) and the
post-match field assembly (note that the `%m` directive sets the MONTH field;
the minute of a `"%H:%m"` parse is the default 0).  Fallible operations
return `Option`; a `none` models the Python exception that aborts the run.
String primitives of Python (`str.split(',')`, `str.strip`, `str.lower`,
`in`) are modelled character-wise on `String.data` for the ASCII inputs the
program handles.
-/

/-- Python naive `datetime.datetime` value: year, month, day, hour, minute,
second, microsecond. -/
structure datetime where
  year : Nat
  month : Nat
  day : Nat
  hour : Nat
  minute : Nat
  second : Nat
  microsecond : Nat
  deriving DecidableEq

/-- Python `datetime` comparison `a < b`: lexicographic on
(year, month, day, hour, minute, second, microsecond). -/
def datetime.lt (a b : datetime) : Bool :=
  decide (a.year < b.year ∨ (a.year = b.year ∧
    (a.month < b.month ∨ (a.month = b.month ∧
    (a.day < b.day ∨ (a.day = b.day ∧
    (a.hour < b.hour ∨ (a.hour = b.hour ∧
    (a.minute < b.minute ∨ (a.minute = b.minute ∧
    (a.second < b.second ∨ (a.second = b.second ∧
    a.microsecond < b.microsecond))))))))))))

/-- Python `datetime` comparison `a <= b`. -/
def datetime.le (a b : datetime) : Bool :=
  datetime.lt a b || decide (a = b)

/-- Gregorian leap-year rule (as used by Python's `datetime` calendar). -/
def leap_year (y : Nat) : Bool :=
  decide ((y % 4 = 0 ∧ y % 100 ≠ 0) ∨ y % 400 = 0)

/-- Number of days in a month of the proleptic Gregorian calendar. -/
def days_in_month (y m : Nat) : Nat :=
  if m = 2 then (if leap_year y then 29 else 28)
  else if m = 4 ∨ m = 6 ∨ m = 9 ∨ m = 11 then 30
  else 31

/-- Python `d + timedelta(days=1)` on a datetime `d` (line 106 of the
source): the calendar day after `d`, at the same time of day. -/
def add_days_1 (d : datetime) : datetime :=
  if d.day < days_in_month d.year d.month then { d with day := d.day + 1 }
  else if d.month < 12 then { d with month := d.month + 1, day := 1 }
  else { d with year := d.year + 1, month := 1, day := 1 }

/-- Python whitespace test `str.isspace` restricted to the ASCII whitespace
characters (space, tab, newline, carriage return, vertical tab, form feed). -/
def pyspace (c : Char) : Bool :=
  decide (c = ' ' ∨ c = '\t' ∨ c = '\n' ∨ c = '\r' ∨ c = '\x0b' ∨ c = '\x0c')

/-- Python `str.strip()`: drop leading and trailing whitespace. -/
def py_strip (s : String) : String :=
  ⟨((s.data.dropWhile pyspace).reverse.dropWhile pyspace).reverse⟩

/-- Splitting a character list on every occurrence of a separator character,
as Python `str.split(sep)` does (no collapsing of empty fields). -/
def splitChar (sep : Char) : List Char → List (List Char)
  | [] => [[]]
  | c :: cs =>
    if c = sep then [] :: splitChar sep cs
    else
      match splitChar sep cs with
      | [] => [[c]]
      | g :: gs => (c :: g) :: gs

/-- Python `s.split(sep)` for a one-character separator. -/
def py_split (s : String) (sep : Char) : List String :=
  (splitChar sep s.data).map (fun g => ⟨g⟩)

/-- Python membership test `c in s` for a single character `c`. -/
def str_contains (s : String) (c : Char) : Bool :=
  s.data.contains c

/-- ASCII lowering of one character, as Python `str.lower` acts on the ASCII
mode labels handled by the program. -/
def char_lower (c : Char) : Char :=
  if 'A' ≤ c ∧ c ≤ 'Z' then Char.ofNat (c.toNat + 32) else c

/-- Python `s.lower()` on ASCII strings. -/
def str_lower (s : String) : String :=
  ⟨s.data.map char_lower⟩

/-- The comma-split rule shared by lines 79-82 (schedule entry names) and
lines 58-61 (email recipients) of the source: if the string contains a comma
it is split on commas and every element is stripped, otherwise the whole
string is the single element. -/
def split_list (s : String) : List String :=
  if str_contains s ',' then (py_split s ',').map py_strip else [s]

/-- Reading one digit character as its value (regex `\d` plus conversion). -/
def digit? (c : Char) : Option Nat :=
  if c.isDigit then some (c.toNat - 48) else none

/-- Matching one digit whose value lies in `[lo, hi]`; the building block for
the digit-range alternatives of the CPython strptime directive regexes. -/
def matchDigitRange (lo hi : Nat) (cs : List Char) : Option (Nat × List Char) :=
  match cs with
  | [] => none
  | c :: rest =>
    match digit? c with
    | none => none
    | some v => if lo ≤ v ∧ v ≤ hi then some (v, rest) else none

/-- Sequencing two one-digit matches into a two-digit number. -/
def seq2 (p q : List Char → Option (Nat × List Char)) (cs : List Char) :
    Option (Nat × List Char) :=
  (p cs).bind fun ar => (q ar.2).bind fun br => some (10 * ar.1 + br.1, br.2)

/-- The strptime `%H` directive, regex `2[0-3]|[0-1]\d|\d`. -/
def matchH (cs : List Char) : Option (Nat × List Char) :=
  match seq2 (matchDigitRange 2 2) (matchDigitRange 0 3) cs with
  | some r => some r
  | none =>
    match seq2 (matchDigitRange 0 1) (matchDigitRange 0 9) cs with
    | some r => some r
    | none => matchDigitRange 0 9 cs

/-- The strptime `%I` directive, regex `1[0-2]|0[1-9]|[1-9]`. -/
def matchI (cs : List Char) : Option (Nat × List Char) :=
  match seq2 (matchDigitRange 1 1) (matchDigitRange 0 2) cs with
  | some r => some r
  | none =>
    match seq2 (matchDigitRange 0 0) (matchDigitRange 1 9) cs with
    | some r => some r
    | none => matchDigitRange 1 9 cs

/-- The strptime `%m` (month) directive, regex `1[0-2]|0[1-9]|[1-9]`. -/
def matchm (cs : List Char) : Option (Nat × List Char) :=
  match seq2 (matchDigitRange 1 1) (matchDigitRange 0 2) cs with
  | some r => some r
  | none =>
    match seq2 (matchDigitRange 0 0) (matchDigitRange 1 9) cs with
    | some r => some r
    | none => matchDigitRange 1 9 cs

/-- The strptime `%M` directive, regex `[0-5]\d|\d`. -/
def matchM (cs : List Char) : Option (Nat × List Char) :=
  match seq2 (matchDigitRange 0 5) (matchDigitRange 0 9) cs with
  | some r => some r
  | none => matchDigitRange 0 9 cs

/-- Matching one literal character of the format string. -/
def matchLit (c : Char) : List Char → Option (List Char)
  | [] => none
  | d :: rest => if d = c then some rest else none

/-- Matching a whitespace character of the format string: regex `\s+`,
one or more whitespace characters (greedy). -/
def matchWs : List Char → Option (List Char)
  | [] => none
  | c :: rest => if pyspace c then some (rest.dropWhile pyspace) else none

/-- The strptime `%p` directive: `am|pm`, case-insensitive; returns `true`
for a PM marker. -/
def matchAmPm : List Char → Option (Bool × List Char)
  | a :: m :: rest =>
    if char_lower a = 'a' ∧ char_lower m = 'm' then some (false, rest)
    else if char_lower a = 'p' ∧ char_lower m = 'm' then some (true, rest)
    else none
  | _ => none

/-- CPython strptime hour assembly for `%I` plus `%p`: a 12 o'clock reading
is 0 with AM and 12 with PM; otherwise PM adds 12. -/
def hourFrom12 (i : Nat) (pm : Bool) : Nat :=
  if pm then (if i = 12 then 12 else i + 12)
  else (if i = 12 then 0 else i)

/-- `datetime.strptime(s, "%I:%M %p")` (the source's `__fmt_12`): on success
the datetime is 1900-01-01 at the parsed hour and minute.  The whole string
must be consumed, as strptime rejects unconverted trailing data. -/
def strptime12 (s : String) : Option datetime :=
  (matchI s.data).bind fun ir =>
  (matchLit ':' ir.2).bind fun cs2 =>
  (matchM cs2).bind fun mr =>
  (matchWs mr.2).bind fun cs3 =>
  (matchAmPm cs3).bind fun pr =>
  if pr.2 = [] then some ⟨1900, 1, 1, hourFrom12 ir.1 pr.1, mr.1, 0, 0⟩ else none

/-- `datetime.strptime(s, "%H:%m")` (the source's `__fmt_24`): note that
`%m` is the MONTH directive of strptime, so the digits after the colon land
in the month field and the minute keeps its default value 0. -/
def strptime24 (s : String) : Option datetime :=
  (matchH s.data).bind fun hr =>
  (matchLit ':' hr.2).bind fun cs2 =>
  (matchm cs2).bind fun mr =>
  if mr.2 = [] then some ⟨1900, mr.1, 1, hr.1, 0, 0, 0⟩ else none

/-- The two time formats the program can select (source lines 16-17). -/
inductive ClockFmt
  | fmt12
  | fmt24
  deriving DecidableEq

/-- `datetime.strptime` at the selected format. -/
def strptime : ClockFmt → String → Option datetime
  | ClockFmt.fmt12, s => strptime12 s
  | ClockFmt.fmt24, s => strptime24 s

/-- Format selection of source lines 84-87: `selected_fmt = __fmt_12`,
overwritten with `__fmt_24` exactly when `clock_type == 24`. -/
def select_fmt (clock_type : Int) : ClockFmt :=
  if clock_type = 24 then ClockFmt.fmt24 else ClockFmt.fmt12

/-- One schedule section of the configuration file: the `mode`, `start` and
`end` keys of section `schedule_<name>`. -/
structure SectionConfig where
  mode : String
  start : String
  «end» : String
  deriving DecidableEq

/-- The configuration data `build_schedule` reads: the `entries` and `clock`
keys of the `schedule` section, and a lookup of the per-entry sections
(`none` models a missing section or key, which raises and aborts). -/
structure Config where
  entries : String
  clock : Int
  get_section : String → Option SectionConfig

/-- The `ScheduleEntry` namedtuple of source line 20. -/
structure ScheduleEntry where
  mode : String
  start : datetime
  «end» : datetime
  deriving DecidableEq

/-- Source lines 101-102: `.replace(year=now.year, month=now.month,
day=now.day, second=0, microsecond=0)`. -/
def replace_ymd (d now : datetime) : datetime :=
  { d with year := now.year, month := now.month, day := now.day,
           second := 0, microsecond := 0 }

/-- Source line 90: `now.replace(hour=0, minute=0, second=0, microsecond=0)`. -/
def start_of_day (now : datetime) : datetime :=
  { now with hour := 0, minute := 0, second := 0, microsecond := 0 }

/-- The loop body of `build_schedule` (source lines 94-114) for one entry
name: look up section `schedule_<entry>`, parse `start` and `end` in the
selected format, project both onto the current day with seconds and
microseconds zeroed, and add one day to `end` when it equals the start of
the current day. -/
def build_one (config : Config) (selected_fmt : ClockFmt) (now : datetime)
    (entry : String) : Option ScheduleEntry :=
  (config.get_section ("schedule_" ++ entry)).bind fun sec =>
  (strptime selected_fmt sec.start).bind fun sp =>
  (strptime selected_fmt sec.«end»).bind fun ep =>
  some { mode := sec.mode,
         start := replace_ymd sp now,
         «end» := if replace_ymd ep now = start_of_day now
                  then add_days_1 (replace_ymd ep now)
                  else replace_ymd ep now }

/-- The `for entry in entries` loop of `build_schedule`: entries are
appended in input order, and any failure aborts the whole build (no
half-built schedule is returned). -/
def build_entries (config : Config) (selected_fmt : ClockFmt) (now : datetime) :
    List String → Option (List ScheduleEntry)
  | [] => some []
  | entry :: rest =>
    match build_one config selected_fmt now entry with
    | none => none
    | some e =>
      match build_entries config selected_fmt now rest with
      | none => none
      | some es => some (e :: es)

/-- `build_schedule` (source lines 72-116), parametrised by the build-time
instant `now` (the source calls `datetime.now()`). -/
def build_schedule (config : Config) (now : datetime) : Option (List ScheduleEntry) :=
  build_entries config (select_fmt config.clock) now
    (split_list (py_strip config.entries))

/-- The containment test of source line 125: `entry.start <= now < entry.end`. -/
def active (entry : ScheduleEntry) (now : datetime) : Bool :=
  datetime.le entry.start now && datetime.lt now entry.«end»

/-- The scan loop of `find_entry` (source lines 122-126): `found_entry`
starts as `None` and is overwritten by every entry whose interval contains
`now`. -/
def find_loop (now : datetime) : Option ScheduleEntry → List ScheduleEntry → Option ScheduleEntry
  | found, [] => found
  | found, entry :: rest =>
    find_loop now (if active entry now then some entry else found) rest

/-- `find_entry` (source lines 119-131), parametrised by the instant `now`;
a `none` result models the `RuntimeError` raised when no entry matched. -/
def find_entry (schedule : List ScheduleEntry) (now : datetime) : Option ScheduleEntry :=
  find_loop now none schedule

/-- `check_station_mode` (source lines 134-142), reduced to its decision
and message content: compare the schedule's expected mode with the observed
station mode case-insensitively; `none` means the modes match and no
notification is sent, `some content` is the notification text
`Arlo in <observed> should be <expected>` built with the original casing. -/
def check_station_mode (mode station_mode : String) : Option String :=
  if str_lower mode = str_lower station_mode then none
  else some ("Arlo in " ++ station_mode ++ " should be " ++ mode)

/-! ## Helper lemmas -/

theorem datetime.lt_irrefl (a : datetime) : datetime.lt a a = false := by
  rw [datetime.lt, decide_eq_false_iff_not]
  omega

theorem datetime.lt_add_days_1 (d x : datetime)
    (hy : x.year = d.year) (hm : x.month = d.month) (hd : x.day = d.day) :
    datetime.lt x (add_days_1 d) = true := by
  rw [add_days_1]
  split_ifs with h1 h2
  · simp only [datetime.lt, decide_eq_true_eq]
    omega
  · simp only [datetime.lt, decide_eq_true_eq]
    omega
  · simp only [datetime.lt, decide_eq_true_eq]
    omega

theorem find_loop_getLast (now : datetime) (l : List ScheduleEntry) :
    ∀ acc : Option ScheduleEntry,
      find_loop now acc l =
        match (l.filter (fun e => active e now)).getLast? with
        | some e => some e
        | none => acc := by
  induction l with
  | nil => intro acc; rfl
  | cons a rest ih =>
    intro acc
    cases ha : active a now with
    | true =>
      simp only [find_loop, ha, if_true, ih]
      rw [List.filter_cons_of_pos (by simpa using ha)]
      cases h2 : rest.filter (fun e => active e now) with
      | nil => simp
      | cons b bs =>
        rw [List.getLast?_cons_cons]
        cases h3 : (b :: bs).getLast? with
        | none => simp at h3
        | some y => simp
    | false =>
      simp only [find_loop, ha, Bool.false_eq_true, if_false, ih]
      rw [List.filter_cons_of_neg (by simp [ha])]

theorem find_entry_getLast (schedule : List ScheduleEntry) (now : datetime) :
    find_entry schedule now = (schedule.filter (fun e => active e now)).getLast? := by
  rw [find_entry, find_loop_getLast]
  cases (schedule.filter (fun e => active e now)).getLast? <;> rfl

theorem build_entries_mem {config : Config} {selected_fmt : ClockFmt} {now : datetime} :
    ∀ {names : List String} {sched : List ScheduleEntry} {e : ScheduleEntry},
      build_entries config selected_fmt now names = some sched → e ∈ sched →
      ∃ name, name ∈ names ∧ build_one config selected_fmt now name = some e := by
  intro names
  induction names with
  | nil =>
    intro sched e h hmem
    rw [build_entries] at h
    cases h
    simp at hmem
  | cons a rest ih =>
    intro sched e h hmem
    rw [build_entries] at h
    cases h1 : build_one config selected_fmt now a with
    | none => rw [h1] at h; exact absurd h (by simp)
    | some e1 =>
      rw [h1] at h
      cases h2 : build_entries config selected_fmt now rest with
      | none => rw [h2] at h; exact absurd h (by simp)
      | some es =>
        rw [h2] at h
        cases h
        rcases hmem with _ | hmem2
        · exact ⟨a, by simp, h1⟩
        · obtain ⟨name, hn, hb⟩ := ih h2 (by assumption)
          exact ⟨name, by simp [hn], hb⟩

theorem build_one_some {config : Config} {selected_fmt : ClockFmt} {now : datetime}
    {name : String} {e : ScheduleEntry} (h : build_one config selected_fmt now name = some e) :
    ∃ sec sp ep, config.get_section ("schedule_" ++ name) = some sec ∧
      strptime selected_fmt sec.start = some sp ∧
      strptime selected_fmt sec.«end» = some ep ∧
      e.mode = sec.mode ∧
      e.start = ⟨now.year, now.month, now.day, sp.hour, sp.minute, 0, 0⟩ ∧
      ((ep.hour = 0 ∧ ep.minute = 0 ∧
          e.«end» = add_days_1 ⟨now.year, now.month, now.day, 0, 0, 0, 0⟩) ∨
       (¬(ep.hour = 0 ∧ ep.minute = 0) ∧
          e.«end» = ⟨now.year, now.month, now.day, ep.hour, ep.minute, 0, 0⟩)) := by
  rw [build_one, Option.bind_eq_some] at h
  obtain ⟨sec, hs, h⟩ := h
  rw [Option.bind_eq_some] at h
  obtain ⟨sp, hsp, h⟩ := h
  rw [Option.bind_eq_some] at h
  obtain ⟨ep, hep, h⟩ := h
  cases h
  refine ⟨sec, sp, ep, hs, hsp, hep, rfl, rfl, ?_⟩
  by_cases hc : replace_ymd ep now = start_of_day now
  · have h00 : ep.hour = 0 ∧ ep.minute = 0 := by
      simpa [replace_ymd, start_of_day, datetime.mk.injEq] using hc
    refine Or.inl ⟨h00.1, h00.2, ?_⟩
    show (if replace_ymd ep now = start_of_day now
          then add_days_1 (replace_ymd ep now) else replace_ymd ep now) = _
    rw [if_pos hc, hc]
    rfl
  · have h00 : ¬(ep.hour = 0 ∧ ep.minute = 0) := by
      intro hcon
      exact hc (by simp [replace_ymd, start_of_day, datetime.mk.injEq, hcon.1, hcon.2])
    refine Or.inr ⟨h00, ?_⟩
    show (if replace_ymd ep now = start_of_day now
          then add_days_1 (replace_ymd ep now) else replace_ymd ep now) = _
    rw [if_neg hc]
    rfl

/-! ## Concrete data used by the claim theorems -/

/-- A fixed build instant, standing for `datetime.now()`:
2021-05-15 10:30:00. -/
def now0 : datetime := ⟨2021, 5, 15, 10, 30, 0, 0⟩

/-- Configuration with clock 12 and one overnight entry 09:00 PM - 05:00 AM
whose end time-of-day is not midnight. -/
def cfg_overnight : Config :=
  ⟨"night", 12,
    fun n => if n = "schedule_night"
             then some ⟨"armed", "09:00 PM", "05:00 AM"⟩ else none⟩

/-- Configuration with clock 12 and one overnight entry 09:00 PM - 12:00 AM
whose end time-of-day is literal midnight. -/
def cfg_midnight : Config :=
  ⟨"night", 12,
    fun n => if n = "schedule_night"
             then some ⟨"armed", "09:00 PM", "12:00 AM"⟩ else none⟩

/-- Configuration with clock 24 and times whose minute parts (30, 15) are
not valid months. -/
def cfg_clock24_a : Config :=
  ⟨"night", 24,
    fun n => if n = "schedule_night"
             then some ⟨"armed", "08:30", "22:15"⟩ else none⟩

/-- Configuration with clock 24 and times whose minute parts (05) happen to
be valid months. -/
def cfg_clock24_b : Config :=
  ⟨"night", 24,
    fun n => if n = "schedule_night"
             then some ⟨"armed", "08:05", "22:05"⟩ else none⟩

/-- Configuration with an unrecognized clock value 13 and 12-hour time
strings. -/
def cfg_clock13 : Config :=
  ⟨"day", 13,
    fun n => if n = "schedule_day"
             then some ⟨"armed", "09:00 AM", "05:00 PM"⟩ else none⟩

/-! ## Claim theorems -/

/-- C1, counterexample: the claim that every entry produced by
`build_schedule` satisfies `start < end` fails on a parseable overnight
configuration whose end time-of-day is not midnight: with clock 12 and the
interval 09:00 PM - 05:00 AM, the built entry has `start` 21:00 and `end`
05:00 of the same day, and `start < end` is false. -/
theorem c1_start_lt_end_counterexample :
    build_schedule cfg_overnight now0 =
      some [⟨"armed", ⟨2021, 5, 15, 21, 0, 0, 0⟩, ⟨2021, 5, 15, 5, 0, 0, 0⟩⟩] ∧
    datetime.lt ⟨2021, 5, 15, 21, 0, 0, 0⟩ ⟨2021, 5, 15, 5, 0, 0, 0⟩ = false :=
  ⟨rfl, rfl⟩

/-- C1, amended: every `ScheduleEntry` produced by `build_schedule` whose
end time-of-day is midnight (the rolled-over case), or whose start
time-of-day is strictly earlier than its end time-of-day, satisfies
`start < end` after normalization.  (Entries whose end time-of-day is
neither midnight nor later than the start time-of-day violate the
invariant, as the counterexample shows.) -/
theorem c1_start_lt_end_amended {config : Config} {now : datetime}
    {sched : List ScheduleEntry} {e : ScheduleEntry}
    (hb : build_schedule config now = some sched) (he : e ∈ sched)
    (h : (e.«end».hour = 0 ∧ e.«end».minute = 0) ∨
         e.start.hour < e.«end».hour ∨
         (e.start.hour = e.«end».hour ∧ e.start.minute < e.«end».minute)) :
    datetime.lt e.start e.«end» = true := by
  rw [build_schedule] at hb
  obtain ⟨name, -, hone⟩ := build_entries_mem hb he
  obtain ⟨sec, sp, ep, -, -, -, -, hstart, hend⟩ := build_one_some hone
  rcases hend with ⟨h0, h1, hend⟩ | ⟨hne, hend⟩
  · rw [hstart, hend]
    exact datetime.lt_add_days_1 _ _ rfl rfl rfl
  · have e1 : e.start.hour = sp.hour := by rw [hstart]
    have e2 : e.start.minute = sp.minute := by rw [hstart]
    have e3 : e.«end».hour = ep.hour := by rw [hend]
    have e4 : e.«end».minute = ep.minute := by rw [hend]
    rw [e1, e2, e3, e4] at h
    rw [hstart, hend]
    simp [datetime.lt]
    omega

/-- C1, witness for the amended theorem, at the midnight-rollover
configuration: the built entry runs from 21:00 to 00:00 of the next day and
satisfies `start < end`. -/
theorem c1_start_lt_end_amended_witness :
    datetime.lt ⟨2021, 5, 15, 21, 0, 0, 0⟩ ⟨2021, 5, 16, 0, 0, 0, 0⟩ = true :=
  @c1_start_lt_end_amended cfg_midnight now0
    [⟨"armed", ⟨2021, 5, 15, 21, 0, 0, 0⟩, ⟨2021, 5, 16, 0, 0, 0, 0⟩⟩]
    ⟨"armed", ⟨2021, 5, 15, 21, 0, 0, 0⟩, ⟨2021, 5, 16, 0, 0, 0, 0⟩⟩
    rfl (by decide) (Or.inl ⟨rfl, rfl⟩)

/-- C2: the claim that clock 24 parses `"HH:MM"` with hour HH and minute MM
fails, because the source's `__fmt_24` is `"%H:%m"` and `%m` is the month
directive.  With clock 24, the time string `"08:30"` does not parse at all
(`30` is not a month), aborting the build; and `"08:05"` parses with the 05
consumed as a month, so the built entry keeps minute 0 instead of 5 (here
for `now` = 2021-05-15 10:30). -/
theorem c2_fmt24_drops_minutes :
    build_schedule cfg_clock24_a now0 = none ∧
    build_schedule cfg_clock24_b now0 =
      some [⟨"armed", ⟨2021, 5, 15, 8, 0, 0, 0⟩, ⟨2021, 5, 15, 22, 0, 0, 0⟩⟩] :=
  ⟨rfl, rfl⟩

/-- C3: `find_entry` uses the half-open containment test: whenever it
returns an entry, that entry satisfies `start <= now` and `now < end`; in
particular the instant `now` is never equal to the returned entry's `end`,
so an entry is never returned at its own end instant. -/
theorem c3_find_entry_halfopen {schedule : List ScheduleEntry} {now : datetime}
    {e : ScheduleEntry} (h : find_entry schedule now = some e) :
    datetime.le e.start now = true ∧ datetime.lt now e.«end» = true ∧
      now ≠ e.«end» := by
  rw [find_entry_getLast] at h
  have hmem := List.mem_of_getLast?_eq_some h
  rw [List.mem_filter] at hmem
  have hact := hmem.2
  rw [active, Bool.and_eq_true] at hact
  refine ⟨hact.1, hact.2, ?_⟩
  intro hEq
  have hlt := hact.2
  rw [hEq, datetime.lt_irrefl] at hlt
  exact Bool.false_ne_true hlt

/-- C3 witness: at 10:00 inside a 09:00 - 17:00 entry, the returned entry
satisfies the half-open conditions. -/
theorem c3_find_entry_halfopen_witness :
    datetime.le ⟨2021, 5, 15, 9, 0, 0, 0⟩ ⟨2021, 5, 15, 10, 0, 0, 0⟩ = true ∧
    datetime.lt ⟨2021, 5, 15, 10, 0, 0, 0⟩ ⟨2021, 5, 15, 17, 0, 0, 0⟩ = true ∧
    (⟨2021, 5, 15, 10, 0, 0, 0⟩ : datetime) ≠ ⟨2021, 5, 15, 17, 0, 0, 0⟩ :=
  @c3_find_entry_halfopen
    [⟨"armed", ⟨2021, 5, 15, 9, 0, 0, 0⟩, ⟨2021, 5, 15, 17, 0, 0, 0⟩⟩]
    ⟨2021, 5, 15, 10, 0, 0, 0⟩
    ⟨"armed", ⟨2021, 5, 15, 9, 0, 0, 0⟩, ⟨2021, 5, 15, 17, 0, 0, 0⟩⟩
    rfl

/-- C4: `find_entry` scans the whole schedule and keeps overwriting the
candidate, so it returns the LAST entry in declaration order whose interval
contains `now` (the last element of the filtered schedule); on the spec's
overlap example - A 09:00 - 17:00 and B 12:00 - 13:00 declared in that
order, resolved at 12:30 - the later-declared B wins. -/
theorem c4_find_entry_last_wins :
    (∀ (schedule : List ScheduleEntry) (now : datetime),
        find_entry schedule now =
          (schedule.filter (fun e => active e now)).getLast?) ∧
    find_entry
      [⟨"x", ⟨2021, 5, 15, 9, 0, 0, 0⟩, ⟨2021, 5, 15, 17, 0, 0, 0⟩⟩,
       ⟨"y", ⟨2021, 5, 15, 12, 0, 0, 0⟩, ⟨2021, 5, 15, 13, 0, 0, 0⟩⟩]
      ⟨2021, 5, 15, 12, 30, 0, 0⟩ =
      some ⟨"y", ⟨2021, 5, 15, 12, 0, 0, 0⟩, ⟨2021, 5, 15, 13, 0, 0, 0⟩⟩ :=
  ⟨find_entry_getLast, rfl⟩

/-- C5: `find_entry` fails (models the raised `RuntimeError`) exactly when
no entry's half-open interval contains `now`; no default or nearest entry
is ever substituted. -/
theorem c5_find_entry_none_iff (schedule : List ScheduleEntry) (now : datetime) :
    find_entry schedule now = none ↔
      ∀ e, e ∈ schedule → active e now = false := by
  rw [find_entry_getLast, List.getLast?_eq_none_iff, List.filter_eq_nil_iff]
  constructor
  · intro h e he
    have := h e he
    simpa using this
  · intro h e he
    simp [h e he]

/-- C5 witness, the spec's gap example: entries 08:00 - 12:00 and
13:00 - 18:00, resolved at 12:30, fail with no active entry. -/
theorem c5_find_entry_none_iff_witness :
    find_entry
      [⟨"a", ⟨2021, 5, 15, 8, 0, 0, 0⟩, ⟨2021, 5, 15, 12, 0, 0, 0⟩⟩,
       ⟨"b", ⟨2021, 5, 15, 13, 0, 0, 0⟩, ⟨2021, 5, 15, 18, 0, 0, 0⟩⟩]
      ⟨2021, 5, 15, 12, 30, 0, 0⟩ = none :=
  (c5_find_entry_none_iff _ _).mpr (by decide)

/-- C6: inside `build_schedule`'s loop, if the computed end timestamp
(the parsed end projected onto the current day) equals the start of the
current day, exactly one day is added to it; otherwise the end is left
unchanged - the midnight comparison is the only rollover adjustment. -/
theorem c6_rollover_iff_midnight {config : Config} {selected_fmt : ClockFmt}
    {now : datetime} {name : String} {sec : SectionConfig} {ep : datetime}
    {e : ScheduleEntry}
    (hs : config.get_section ("schedule_" ++ name) = some sec)
    (hp : strptime selected_fmt sec.«end» = some ep)
    (hb : build_one config selected_fmt now name = some e) :
    (replace_ymd ep now = start_of_day now →
        e.«end» = add_days_1 (replace_ymd ep now)) ∧
    (replace_ymd ep now ≠ start_of_day now →
        e.«end» = replace_ymd ep now) := by
  rw [build_one, hs, Option.some_bind, Option.bind_eq_some] at hb
  obtain ⟨sp, hsp, hb⟩ := hb
  rw [hp, Option.some_bind] at hb
  cases hb
  constructor
  · intro hc
    show (if replace_ymd ep now = start_of_day now
          then add_days_1 (replace_ymd ep now) else replace_ymd ep now) = _
    rw [if_pos hc]
  · intro hc
    show (if replace_ymd ep now = start_of_day now
          then add_days_1 (replace_ymd ep now) else replace_ymd ep now) = _
    rw [if_neg hc]

/-- C6 witness: with the literal-midnight configuration, the computed end
equals the start of the current day and the built entry's end is one day
later. -/
theorem c6_rollover_iff_midnight_witness :
    (ScheduleEntry.mk "armed" ⟨2021, 5, 15, 21, 0, 0, 0⟩
        ⟨2021, 5, 16, 0, 0, 0, 0⟩).«end» =
      add_days_1 (replace_ymd ⟨1900, 1, 1, 0, 0, 0, 0⟩ now0) :=
  (@c6_rollover_iff_midnight cfg_midnight ClockFmt.fmt12 now0 "night"
    ⟨"armed", "09:00 PM", "12:00 AM"⟩ ⟨1900, 1, 1, 0, 0, 0, 0⟩
    ⟨"armed", ⟨2021, 5, 15, 21, 0, 0, 0⟩, ⟨2021, 5, 16, 0, 0, 0, 0⟩⟩
    rfl rfl rfl).1 rfl

/-- C7: the comma-split rule is asymmetric: a string without a comma yields
the one-element list holding the string itself, unchanged; a string with a
comma is split on every comma with whitespace stripped around each element
(concrete cases from the spec included). -/
theorem c7_split_list_asymmetry :
    (∀ s : String, str_contains s ',' = false → split_list s = [s]) ∧
    split_list "a" = ["a"] ∧
    split_list "a, b" = ["a", "b"] ∧
    split_list " a ,  b " = ["a", "b"] := by
  refine ⟨?_, rfl, rfl, rfl⟩
  intro s h
  simp [split_list, h]

/-- C7 witness: a comma-free string with inner and outer whitespace stays a
single untouched element. -/
theorem c7_split_list_asymmetry_witness : split_list " a b " = [" a b "] :=
  c7_split_list_asymmetry.1 " a b " rfl

/-- C8: `build_schedule` selects the 24-hour parse format exactly when the
configured clock value equals 24; every other value - including the
unrecognized value 13 - silently selects the 12-hour-with-meridiem format,
and the build proceeds without any validation error. -/
theorem c8_select_fmt_iff_24 :
    (∀ c : Int, select_fmt c = ClockFmt.fmt24 ↔ c = 24) ∧
    build_schedule cfg_clock13 now0 =
      some [⟨"armed", ⟨2021, 5, 15, 9, 0, 0, 0⟩, ⟨2021, 5, 15, 17, 0, 0, 0⟩⟩] := by
  refine ⟨?_, rfl⟩
  intro c
  rw [select_fmt]
  by_cases h : c = 24
  · simp [h]
  · simp [h]

/-- C8 witness: clock 24 selects the 24-hour format. -/
theorem c8_select_fmt_iff_24_witness : select_fmt 24 = ClockFmt.fmt24 :=
  (c8_select_fmt_iff_24.1 24).mpr rfl

/-- C9: `check_station_mode` compares the expected and observed mode
case-insensitively - no notification exactly when the lowercased strings
are equal - and a mismatch produces the notification content
`Arlo in <observed> should be <expected>` with both modes in their original
casing (concrete cases: expected `Armed` vs observed `armed` matches;
expected `armed` vs observed `Disarmed` notifies verbatim). -/
theorem c9_check_station_mode_case_insensitive :
    (∀ mode station_mode : String,
        str_lower mode = str_lower station_mode →
        check_station_mode mode station_mode = none) ∧
    (∀ mode station_mode : String,
        str_lower mode ≠ str_lower station_mode →
        check_station_mode mode station_mode =
          some ("Arlo in " ++ station_mode ++ " should be " ++ mode)) ∧
    check_station_mode "Armed" "armed" = none ∧
    check_station_mode "armed" "Disarmed" =
      some "Arlo in Disarmed should be armed" := by
  refine ⟨?_, ?_, rfl, rfl⟩
  · intro m s h
    rw [check_station_mode, if_pos h]
  · intro m s h
    rw [check_station_mode, if_neg h]

/-- C9 witness: equal lowercase forms give no notification. -/
theorem c9_check_station_mode_case_insensitive_witness :
    check_station_mode "ARMED" "armed" = none :=
  c9_check_station_mode_case_insensitive.1 "ARMED" "armed" rfl

/-- C10: on the empty schedule, `find_entry` fails with the no-active-entry
error (returns `none`, modelling the `RuntimeError`) for every instant
`now`. -/
theorem c10_find_entry_nil (now : datetime) : find_entry [] now = none := rfl
